import Mathlib

set_option maxRecDepth 100000

/-!
Verification of the ai-book-engine HTTP service (src/server.js, src/unnamed/part_000,
src/unnamed/part_001).  The repository bundles three near-duplicate Express servers;
this file gives a shallow embedding of the request handlers that the specification's
claims are about, together with proofs and refutations of those claims.

Handlers are embedded as pure functions from a request body (the fields of the JSON
object produced by express.json) and an upstream environment (the responses the
OpenAI client and fetch would deliver) to the list of outbound calls performed and
the HTTP response sent.  JavaScript values flowing through the handlers are modelled
by the inductive type `JVal`; platform builtins used by the code (JSON.parse,
String(), String.prototype.trim, the falsiness rules of `||` and `!`) are modelled
explicitly below, each marked as such in its doc comment.
-/

/-- Model of a JavaScript/JSON value.  Object fields are kept as an association
list without duplicate keys (object literals and JSON.parse both let a later
duplicate key win, which `insertField` below implements).  JSON numbers are
restricted to integers in this model; none of the payloads the claims are about
carry fractional numbers. -/
inductive JVal where
  | jNull
  | jBool (b : Bool)
  | jNum (n : Int)
  | jStr (s : String)
  | jArr (xs : List JVal)
  | jObj (fields : List (String × JVal))

/-- First binding of a key in an object's field list. -/
def lookupField : List (String × JVal) → String → Option JVal
  | [], _ => none
  | (k, v) :: fs, key => if k = key then some v else lookupField fs key

/-- Bind a key, replacing any previous binding (later writes win, as in JS). -/
def insertField (fs : List (String × JVal)) (k : String) (v : JVal) :
    List (String × JVal) :=
  fs.filter (fun p => p.1 ≠ k) ++ [(k, v)]

/-- Models JavaScript truthiness of a defined value: null, false, 0 and the
empty string are falsy, every array and object is truthy. -/
def truthy : JVal → Bool
  | .jNull => false
  | .jBool b => b
  | .jNum n => n ≠ 0
  | .jStr s => s ≠ ""
  | .jArr _ => true
  | .jObj _ => true

/-- Truthiness of a possibly-undefined value (`none` models `undefined`). -/
def truthyO : Option JVal → Bool
  | none => false
  | some v => truthy v

/-- Truthiness of a possibly-undefined string-valued field. -/
def truthyS : Option String → Bool
  | none => false
  | some s => s ≠ ""

/-- Models the JavaScript expression `v || d` for a possibly-undefined `v`. -/
def jsOrV (v : Option JVal) (d : JVal) : JVal :=
  match v with
  | none => d
  | some x => if truthy x then x else d

/-- Models `s || d` where `s` is a possibly-undefined string (empty is falsy). -/
def orStr (s : Option String) (d : String) : String :=
  match s with
  | none => d
  | some x => if x = "" then d else x

/-- Models `n || d` where `n` is a possibly-undefined number (0 is falsy). -/
def orNat (n : Option Nat) (d : Nat) : Nat :=
  match n with
  | none => d
  | some x => if x = 0 then d else x

/-- Models JavaScript property access `v.k`: returns the (possibly undefined)
field for objects, `undefined` for primitives, and signals the TypeError that
`null.k` throws by returning `none` at the outer level. -/
def jsGet : JVal → String → Option (Option JVal)
  | .jNull, _ => none
  | .jObj fs, k => some (lookupField fs k)
  | _, _ => some none

mutual
/-- Models JavaScript's String() coercion on a defined value. -/
def jsToString : JVal → String
  | .jNull => "null"
  | .jBool b => cond b "true" "false"
  | .jNum n => toString n
  | .jStr s => s
  | .jObj _ => "[object Object]"
  | .jArr xs => String.intercalate "," (jsJoinList xs)

/-- Elements of an array under String() coercion; Array.prototype.join renders
null elements as the empty string. -/
def jsJoinList : List JVal → List String
  | [] => []
  | .jNull :: xs => "" :: jsJoinList xs
  | v :: xs => jsToString v :: jsJoinList xs
end

/-- Models template-literal interpolation of a possibly-undefined value. -/
def interpO : Option JVal → String
  | none => "undefined"
  | some v => jsToString v

/-- The whitespace characters recognised by the trim model (the ASCII whitespace
JSON and the payloads at issue can contain). -/
def isWsChar (c : Char) : Bool :=
  c = ' ' || c = '\t' || c = '\n' || c = '\r'

/-- Drop leading whitespace characters. -/
def dropWs (cs : List Char) : List Char :=
  cs.dropWhile isWsChar

/-- Drop trailing whitespace characters. -/
def trimEnd (cs : List Char) : List Char :=
  (dropWs cs.reverse).reverse

/-- Models String.prototype.trim. -/
def jsTrim (s : String) : String :=
  String.mk (trimEnd (dropWs s.data))

/-- A character list with no leading whitespace. -/
def frontClean (cs : List Char) : Prop :=
  ∀ c, cs.head? = some c → isWsChar c = false

theorem dropWs_frontClean (cs : List Char) : frontClean (dropWs cs) := by
  induction cs with
  | nil => intro c h; simp [dropWs] at h
  | cons a cs ih =>
    by_cases ha : isWsChar a = true
    · simpa [dropWs, List.dropWhile_cons, ha] using ih
    · intro c h
      simp [dropWs, List.dropWhile_cons, ha] at h
      subst h
      simpa using ha

theorem frontClean_dropWs_eq {cs : List Char} (h : frontClean cs) :
    dropWs cs = cs := by
  cases cs with
  | nil => rfl
  | cons a cs =>
    have := h a (by simp)
    simp [dropWs, List.dropWhile_cons, this]

theorem dropWs_getLast? (cs : List Char) (h : dropWs cs ≠ []) :
    (dropWs cs).getLast? = cs.getLast? := by
  induction cs with
  | nil => simp [dropWs] at h
  | cons a cs ih =>
    by_cases ha : isWsChar a = true
    · have hd : dropWs (a :: cs) = dropWs cs := by
        simp [dropWs, List.dropWhile_cons, ha]
      rw [hd] at h ⊢
      have hcs : cs ≠ [] := by
        intro hc; subst hc; simp [dropWs] at h
      cases cs with
      | nil => exact absurd rfl hcs
      | cons b cs' => rw [ih h, List.getLast?_cons_cons]
    · simp [dropWs, List.dropWhile_cons, ha]

theorem frontClean_trimEnd {cs : List Char} (h : frontClean cs) :
    frontClean (trimEnd cs) := by
  intro c hc
  by_cases hnil : dropWs cs.reverse = []
  · simp [trimEnd, hnil] at hc
  · have h1 : (trimEnd cs).head? = (dropWs cs.reverse).getLast? := by
      simp [trimEnd, List.head?_reverse]
    rw [dropWs_getLast? _ hnil, List.getLast?_reverse] at h1
    exact h c (h1 ▸ hc)

theorem dropWs_idem (cs : List Char) : dropWs (dropWs cs) = dropWs cs :=
  frontClean_dropWs_eq (dropWs_frontClean cs)

theorem trimEnd_idem (cs : List Char) : trimEnd (trimEnd cs) = trimEnd cs := by
  simp [trimEnd, List.reverse_reverse, dropWs_idem]

/-- Trimming is idempotent: a trimmed string has no surrounding whitespace. -/
theorem jsTrim_idem (s : String) : jsTrim (jsTrim s) = jsTrim s := by
  show String.mk (trimEnd (dropWs (trimEnd (dropWs s.data)))) =
    String.mk (trimEnd (dropWs s.data))
  rw [frontClean_dropWs_eq (frontClean_trimEnd (dropWs_frontClean s.data)),
    trimEnd_idem]

/-- Scan for an occurrence of `needle` as a contiguous run of `hay`. -/
def infixScan (needle : List Char) : List Char → Bool
  | [] => needle.isEmpty
  | b :: bs => needle.isPrefixOf (b :: bs) || infixScan needle bs

/-- Substring test (`hay.includes(needle)`), used to state facts about the
composed prompts. -/
def containsSub (hay needle : String) : Bool :=
  infixScan needle.data hay.data

/-- Hexadecimal digit value, for \uXXXX escapes in JSON strings. -/
def hexVal (c : Char) : Option Nat :=
  if '0' ≤ c ∧ c ≤ '9' then some (c.toNat - 48)
  else if 'a' ≤ c ∧ c ≤ 'f' then some (c.toNat - 87)
  else if 'A' ≤ c ∧ c ≤ 'F' then some (c.toNat - 55)
  else none

/-- Body of a JSON string after its opening quote: returns the decoded
characters and the remainder after the closing quote.  Raw control characters
are rejected, escapes are decoded; failure models the SyntaxError JSON.parse
throws. -/
def parseStrChars : Nat → List Char → Option (List Char × List Char)
  | 0, _ => none
  | _, [] => none
  | fuel + 1, c :: cs =>
    if c = '"' then some ([], cs)
    else if c = '\\' then
      match cs with
      | [] => none
      | e :: cs2 =>
        if e = 'u' then
          match cs2 with
          | h1 :: h2 :: h3 :: h4 :: cs3 =>
            match hexVal h1, hexVal h2, hexVal h3, hexVal h4 with
            | some a, some b, some c3, some d =>
              match parseStrChars fuel cs3 with
              | some (s, r) =>
                some (Char.ofNat (((a * 16 + b) * 16 + c3) * 16 + d) :: s, r)
              | none => none
            | _, _, _, _ => none
          | _ => none
        else
          match
            (if e = '"' then some '"'
             else if e = '\\' then some '\\'
             else if e = '/' then some '/'
             else if e = 'b' then some '\x08'
             else if e = 'f' then some '\x0c'
             else if e = 'n' then some '\n'
             else if e = 'r' then some '\r'
             else if e = 't' then some '\t'
             else none) with
          | some d =>
            match parseStrChars fuel cs2 with
            | some (s, r) => some (d :: s, r)
            | none => none
          | none => none
    else if c.toNat < 32 then none
    else
      match parseStrChars fuel cs with
      | some (s, r) => some (c :: s, r)
      | none => none

/-- Digits of a decimal numeral, accumulated left to right. -/
def digitsToNat : List Char → Nat → Nat
  | [], acc => acc
  | c :: cs, acc => digitsToNat cs (acc * 10 + (c.toNat - 48))

/-- A JSON numeral.  The model covers the integer numerals of the JSON grammar
(including its no-leading-zero rule); fractional and exponent forms are outside
the payload shapes at issue and are rejected. -/
def parseNumber (cs : List Char) : Option (Int × List Char) :=
  let core : List Char → Option (Nat × List Char) := fun ds =>
    let digits := ds.takeWhile Char.isDigit
    let rest := ds.dropWhile Char.isDigit
    if digits = [] then none
    else if digits.length > 1 ∧ digits.head? = some '0' then none
    else
      match rest with
      | '.' :: _ => none
      | 'e' :: _ => none
      | 'E' :: _ => none
      | _ => some (digitsToNat digits 0, rest)
  match cs with
  | '-' :: ds =>
    match core ds with
    | some (n, r) => some (-(n : Int), r)
    | none => none
  | ds =>
    match core ds with
    | some (n, r) => some ((n : Int), r)
    | none => none

/-- Expect a literal run of characters. -/
def expectChars : List Char → List Char → Option (List Char)
  | [], cs => some cs
  | e :: es, c :: cs => if c = e then expectChars es cs else none
  | _ :: _, [] => none

mutual
/-- A JSON value, by recursive descent with explicit fuel.  Together with
`jsonParse` below this models the JavaScript builtin JSON.parse; `none` models
the SyntaxError it throws on malformed input. -/
def parseVal : Nat → List Char → Option (JVal × List Char)
  | 0, _ => none
  | fuel + 1, cs =>
    match dropWs cs with
    | [] => none
    | c :: rest =>
      if c = '\x7b' then
        match dropWs rest with
        | '\x7d' :: rest2 => some (.jObj [], rest2)
        | rest2 =>
          match parseMembers fuel rest2 [] with
          | some (fs, r) => some (.jObj fs, r)
          | none => none
      else if c = '[' then
        match dropWs rest with
        | ']' :: rest2 => some (.jArr [], rest2)
        | rest2 =>
          match parseItems fuel rest2 [] with
          | some (xs, r) => some (.jArr xs, r)
          | none => none
      else if c = '"' then
        match parseStrChars (rest.length + 1) rest with
        | some (s, r) => some (.jStr (String.mk s), r)
        | none => none
      else if c = 't' then
        match expectChars ['r', 'u', 'e'] rest with
        | some r => some (.jBool true, r)
        | none => none
      else if c = 'f' then
        match expectChars ['a', 'l', 's', 'e'] rest with
        | some r => some (.jBool false, r)
        | none => none
      else if c = 'n' then
        match expectChars ['u', 'l', 'l'] rest with
        | some r => some (.jNull, r)
        | none => none
      else
        match parseNumber (c :: rest) with
        | some (n, r) => some (.jNum n, r)
        | none => none

/-- Members of a JSON object after its opening brace (non-empty case). -/
def parseMembers : Nat → List Char → List (String × JVal) →
    Option (List (String × JVal) × List Char)
  | 0, _, _ => none
  | fuel + 1, cs, acc =>
    match dropWs cs with
    | '"' :: rest =>
      match parseStrChars (rest.length + 1) rest with
      | some (k, r1) =>
        match dropWs r1 with
        | ':' :: r2 =>
          match parseVal fuel r2 with
          | some (v, r3) =>
            let acc2 := insertField acc (String.mk k) v
            match dropWs r3 with
            | ',' :: r4 => parseMembers fuel r4 acc2
            | '\x7d' :: r4 => some (acc2, r4)
            | _ => none
          | none => none
        | _ => none
      | none => none
    | _ => none

/-- Items of a JSON array after its opening bracket (non-empty case). -/
def parseItems : Nat → List Char → List JVal → Option (List JVal × List Char)
  | 0, _, _ => none
  | fuel + 1, cs, acc =>
    match parseVal fuel cs with
    | some (v, r1) =>
      let acc2 := acc ++ [v]
      match dropWs r1 with
      | ',' :: r2 => parseItems fuel r2 acc2
      | ']' :: r2 => some (acc2, r2)
      | _ => none
    | none => none
end

/-- Models JSON.parse: parse one value and require only whitespace after it. -/
def jsonParse (s : String) : Option JVal :=
  match parseVal (2 * s.length + 2) s.data with
  | some (v, rest) => if dropWs rest = [] then some v else none
  | none => none

theorem jsonParse_empty_obj : jsonParse "\x7b\x7d" = some (.jObj []) := rfl

theorem jsonParse_mixed : jsonParse " \x7b \"a\" : [1, -2, null, \"x\"] \x7d " =
    some (.jObj [("a", .jArr [.jNum 1, .jNum (-2), .jNull, .jStr "x"])]) := rfl

theorem jsonParse_dup_key : jsonParse "\x7b\"a\":1,\"a\":2\x7d" =
    some (.jObj [("a", .jNum 2)]) := rfl

theorem jsonParse_truncated_lit : jsonParse "tru" = none := rfl

theorem jsonParse_empty_str : jsonParse "" = none := rfl

/-- One chat-completion message as returned by the text capability; `content`
is string-or-null in the upstream API. -/
structure Message where
  content : Option String

/-- One element of a chat completion's `choices` array. -/
structure Choice where
  message : Message

/-- The chat-completion response shape the handlers consume. -/
structure Completion where
  choices : List Choice

/-- The error object a failed upstream call throws: the handlers read
`err?.status`, `err?.code` and `err?.message`, each possibly undefined. -/
structure UpErr where
  status : Option Nat
  code : Option String
  message : Option String

/-- One element of `images.generate(...).data`; each field may be absent. -/
structure ImageItem where
  b64_json : Option String
  url : Option String
  base64 : Option String

/-- The image-generation response shape the handlers consume. -/
structure ImagesResponse where
  data : List ImageItem

/-- An outbound call performed by a handler, recorded with the composed prompt
(or URL / file name) so theorems can speak about what was sent. -/
inductive UpCall where
  | chat (prompt : String)
  | imageGen (prompt : String)
  | fetchUrl (url : String)
  | writeFile (fileName : String)

/-- The HTTP response a handler sends: status code and JSON body. -/
structure HttpResponse where
  statusCode : Nat
  body : JVal

/-- Environment for /generate-character in server.js: the vision completion,
the image generation, and the base64 encoding of bytes fetched from a returned
URL. -/
structure CharEnv where
  vision : Except UpErr Completion
  image : Except UpErr ImagesResponse
  fetched : Except UpErr String

/-- Environment for /generate-image in server.js. -/
structure SvImgEnv where
  image : Except UpErr ImagesResponse
  fetched : Except UpErr String

/-- Environment for /generate-image in part_001: the image generation and the
random file-name stem produced by crypto.randomUUID. -/
structure P1ImgEnv where
  image : Except UpErr ImagesResponse
  uuid : String

/-- `completion.choices?.[0]?.message?.content` with optional chaining. -/
def completionContent (c : Completion) : Option String :=
  c.choices.head?.bind fun ch => ch.message.content

/-- Field of a JSON-object response body. -/
def bodyField (r : HttpResponse) (k : String) : Option JVal :=
  match r.body with
  | .jObj fs => lookupField fs k
  | _ => none

/-- The `pages` array of a response body (empty if absent). -/
def pagesOf (r : HttpResponse) : List JVal :=
  match bodyField r "pages" with
  | some (.jArr xs) => xs
  | _ => []

/-- Field `k` of the `i`-th page object of a response body. -/
def pageField (r : HttpResponse) (i : Nat) (k : String) : Option JVal :=
  match (pagesOf r).get? i with
  | some (.jObj fs) => lookupField fs k
  | _ => none

/-- The story prompt composed by /create-book in server.js (lines 41-67). -/
def svCreateBookPrompt (style : JVal) (child_name age story_type : Option JVal) :
    String :=
  "\nYou are a professional children\x27s book writer and illustrator.\n\nIllustration style must be: "
    ++ jsToString style
    ++ ".\n\nCreate a magical children\x27s story.\n\nChild name: "
    ++ interpO child_name
    ++ "\nChild age: "
    ++ interpO age
    ++ "\nStory theme: "
    ++ interpO story_type
    ++ "\n\nReturn structured JSON only in this format:\n\n\x7b\n  \"title\": \"string\",\n  \"subtitle\": \"string\",\n  \"pages\": [\n    \x7b \"text\": \"string (max 80 words)\", \"imagePrompt\": \"string (for an illustration)\" \x7d\n  ]\n\x7d\n\nRules:\n- 10 pages exactly.\n- Page texts must be kid-friendly, colorful, positive, and simple.\n- imagePrompt should describe a colorful children\x27s illustration (no brand names).\n- Keep prompts consistent for the SAME main character across pages.\n"

/-- The story prompt composed by /create-book in part_001 (lines 55-80). -/
def p1CreateBookPrompt (style : JVal) (child_name age story_type : Option JVal) :
    String :=
  "\nYou are a professional children\x27s book writer.\n\nIllustration style must be: "
    ++ jsToString style
    ++ ".\n\nCreate a magical children\x27s story.\n\nChild name: "
    ++ interpO child_name
    ++ "\nChild age: "
    ++ interpO age
    ++ "\nStory theme: "
    ++ interpO story_type
    ++ "\n\nReturn structured JSON only in this format:\n\n\x7b\n  \"title\": \"string\",\n  \"subtitle\": \"string\",\n  \"pages\": [\n    \x7b \"text\": \"string (max 80 words)\", \"imagePrompt\": \"string (for an illustration)\" \x7d\n  ]\n\x7d\n\nRules:\n- 10 pages exactly.\n- Page texts must be kid-friendly, colorful, positive, and simple.\n- imagePrompt should describe a colorful children\x27s illustration (no brand names).\n"

/-- The story prompt composed by /create-book in part_000 (lines 53-67); note
the `||` defaults for language and illustration_style inside the template. -/
def p0CreateBookPrompt (language child_name age story_type
    character_description illustration_style : Option JVal) : String :=
  "\n      Write a 10-page children\x27s storybook in "
    ++ jsToString (jsOrV language (.jStr "English"))
    ++ ".\n      Hero: "
    ++ interpO child_name
    ++ ", Age: "
    ++ interpO age
    ++ ". Theme: "
    ++ interpO story_type
    ++ ".\n      Physical appearance to maintain: "
    ++ interpO character_description
    ++ ".\n      Style: "
    ++ jsToString (jsOrV illustration_style (.jStr "3D Render"))
    ++ ".\n\n      Return ONLY a JSON object:\n      \x7b\n        \"title\": \"...\",\n        \"subtitle\": \"...\",\n        \"pages\": [\n          \x7b \"text\": \"...\", \"imagePrompt\": \"Detailed illustration prompt of "
    ++ interpO child_name
    ++ " doing X, maintaining the character description.\" \x7d\n        ]\n      \x7d\n    "

/-- The fixed vision prompt of /generate-character in server.js (lines 160-175). -/
def svVisionPrompt : String :=
  "\nAnalyze this child photo and describe the child in detail.\n\nReturn a consistent character description that can be reused for illustration prompts.\n\nInclude:\n- Hair color\n- Hair length\n- Skin tone\n- Face shape\n- Eye color\n- Distinct features\n- General vibe\n\nKeep it concise but consistent.\n"

/-- The reference-illustration prompt of /generate-character in server.js
(lines 187-200). -/
def svCharImagePrompt (style : JVal) (characterDescription : String) : String :=
  "\nCreate a high quality children\x27s book character illustration.\n\nStyle: "
    ++ jsToString style
    ++ "\n\nThe character must strongly resemble:\n"
    ++ characterDescription
    ++ "\n\nFull body.\nNeutral background.\nSoft lighting.\nHighly detailed.\nNo text.\n"

/-- The fixed vision prompt of /generate-character in part_000 (line 35). -/
def p0VisionPrompt : String :=
  "Describe this child\x27s face, hair, and eyes for a storybook character. Max 2 sentences for consistency."

/-- The final image prompt of /generate-image in server.js (lines 250-257). -/
def svImageFinalPrompt (promptF : Option JVal) (style : JVal) : String :=
  "\n" ++ interpO promptF ++ "\n\nIllustration style: " ++ jsToString style
    ++ ".\nHigh quality children\x27s book illustration.\nColorful, detailed, soft lighting.\nNo text on image.\n"

/-- The final image prompt of /generate-image in part_001 (lines 160-167),
including the `.trim()` the source applies. -/
def p1ImageFinalPrompt (promptF : Option JVal) (style : JVal) : String :=
  jsTrim ("\nChildren\x27s book illustration.\nStyle: " ++ jsToString style
    ++ ".\nHigh quality, colorful, soft lighting.\nNo text on image.\nScene:\n"
    ++ interpO promptF ++ "\n")

/-- Validation applied by /create-book in server.js (lines 32-37) and part_001
(lines 46-51): `!child_name || !age || !story_type`. -/
def missingCreateBookFields (req : List (String × JVal)) : Bool :=
  !truthyO (lookupField req "child_name") || !truthyO (lookupField req "age") ||
    !truthyO (lookupField req "story_type")

/-- The 400 body sent when a mandatory /create-book field is absent. -/
def missingFieldsResponse : HttpResponse :=
  ⟨400, .jObj [("status", .jStr "error"),
    ("message", .jStr "Missing required fields: child_name, age, story_type")]⟩

/-- The 500 body sent when the parsed pages array does not have length 10. -/
def pageCountResponse (returned : Nat) : HttpResponse :=
  ⟨500, .jObj [("status", .jStr "error"),
    ("message", .jStr "AI returned invalid page count. Expected 10 pages."),
    ("debug", .jObj [("returned", .jNum returned)])]⟩

/-- Quota message of the /create-book catch blocks. -/
def quotaBodyStories : String :=
  "OpenAI quota/billing issue. Please enable billing or add credits to generate stories/images."

/-- Quota message of the /generate-image catch block in part_001. -/
def quotaBodyImages : String :=
  "OpenAI quota/billing issue. Please enable billing or add credits to generate images."

/-- The 429 body sent on an upstream quota / rate-limit signal. -/
def quotaResponse (msg code : String) : HttpResponse :=
  ⟨429, .jObj [("status", .jStr "error"), ("message", .jStr msg),
    ("code", .jStr code)]⟩

/-- The generic 500 failure body with code and diagnostic details. -/
def genFailedResponse (msg code details : String) : HttpResponse :=
  ⟨500, .jObj [("status", .jStr "error"), ("message", .jStr msg),
    ("code", .jStr code), ("details", .jStr details)]⟩

/-- Modelled message of the SyntaxError JSON.parse throws (engine-specific
text; no claim depends on it). -/
def parseErrMessage : String := "Unexpected token in JSON"

/-- Modelled message of the TypeError thrown by property access on null or by
indexing an empty choices array (engine-specific text; no claim depends on it). -/
def typeErrMessage : String := "Cannot read properties of null"

/-- The catch block of /create-book in server.js (lines 119-139) and part_001
(lines 118-138): 429 / insufficient_quota get a dedicated 429 response,
everything else the generic 500. -/
def createBookCatch (e : UpErr) : HttpResponse :=
  if orNat e.status 500 = 429 ∨ orStr e.code "unknown_error" = "insufficient_quota" then
    quotaResponse quotaBodyStories (orStr e.code "unknown_error")
  else
    genFailedResponse "AI generation failed" (orStr e.code "unknown_error")
      (orStr e.message "AI generation failed")

/-- The catch block of /generate-image in part_001 (lines 207-227). -/
def p1ImageCatch (e : UpErr) : HttpResponse :=
  if orNat e.status 500 = 429 ∨ orStr e.code "unknown_error" = "insufficient_quota" then
    quotaResponse quotaBodyImages (orStr e.code "unknown_error")
  else
    genFailedResponse "Image generation failed" (orStr e.code "unknown_error")
      (orStr e.message "Image generation failed")

/-- The catch block of /generate-image in server.js (lines 284-295): the
upstream status is passed through (`err?.status || 500`) with a generic body. -/
def svImageCatch (e : UpErr) : HttpResponse :=
  ⟨orNat e.status 500, .jObj [("status", .jStr "error"),
    ("message", .jStr "Image generation failed"),
    ("code", .jStr (orStr e.code "unknown_error")),
    ("details", .jStr (orStr e.message "Image generation failed"))]⟩

/-- `String(v || "").trim()`: the coercion both page normalisations apply to
`p.text` and `p.imagePrompt`. -/
def coerceStr (v : Option JVal) : String :=
  jsTrim (jsToString (jsOrV v (.jStr "")))

/-- Page normalisation of /create-book in server.js (lines 114-117): only
`text` and `imagePrompt`, no page number.  `none` models the TypeError thrown
when the page element is null. -/
def svPageJson (p : JVal) : Option JVal :=
  match jsGet p "text", jsGet p "imagePrompt" with
  | some t, some ip =>
    some (.jObj [("text", .jStr (coerceStr t)),
      ("imagePrompt", .jStr (coerceStr ip))])
  | _, _ => none

/-- `pages.map(...)` for the server.js page normalisation. -/
def mapPagesSv : List JVal → Option (List JVal)
  | [] => some []
  | p :: ps =>
    match svPageJson p, mapPagesSv ps with
    | some x, some xs => some (x :: xs)
    | _, _ => none

/-- Page normalisation of /create-book in part_001 (lines 104-109):
1-based pageNumber from the position, trimmed text and imagePrompt, null
imageUrl. -/
def p1PageJson (i : Nat) (p : JVal) : Option JVal :=
  match jsGet p "text", jsGet p "imagePrompt" with
  | some t, some ip =>
    some (.jObj [("pageNumber", .jNum (i + 1)),
      ("text", .jStr (coerceStr t)),
      ("imagePrompt", .jStr (coerceStr ip)),
      ("imageUrl", .jNull)])
  | _, _ => none

/-- `pages.map((p, i) => ...)` for the part_001 page normalisation. -/
def mapPagesP1 : Nat → List JVal → Option (List JVal)
  | _, [] => some []
  | i, p :: ps =>
    match p1PageJson i p, mapPagesP1 (i + 1) ps with
    | some x, some xs => some (x :: xs)
    | _, _ => none

/-- `Array.isArray(book.pages) ? book.pages.slice(0, 10) : []` applied to the
(possibly undefined) `pages` field. -/
def pagesFromF : Option JVal → List JVal
  | some (.jArr xs) => xs.take 10
  | _ => []

/-- The 200 body of a successful /create-book in server.js and part_001. -/
def okBookResponse (style title subtitle : JVal) (pages : List JVal) :
    HttpResponse :=
  ⟨200, .jObj [("status", .jStr "ok"), ("title", title),
    ("subtitle", subtitle), ("illustration_style", style),
    ("pages", .jArr pages)]⟩

/-- Normalisation and validation of the parsed book in server.js /create-book
(lines 97-118): title/subtitle defaults, `Array.isArray(book.pages) ?
book.pages.slice(0, 10) : []`, the length-10 check, and the page mapping.
`none` models a thrown TypeError (book or a page element is null). -/
def svBookBody (style book : JVal) : Option HttpResponse :=
  match jsGet book "title", jsGet book "subtitle", jsGet book "pages" with
  | some titleF, some subtitleF, some pagesF =>
    if (pagesFromF pagesF).length ≠ 10 then
      some (pageCountResponse (pagesFromF pagesF).length)
    else
      match mapPagesSv (pagesFromF pagesF) with
      | some mapped =>
        some (okBookResponse style (jsOrV titleF (.jStr "My Magical Story"))
          (jsOrV subtitleF (.jStr "A personalized adventure")) mapped)
      | none => none
  | _, _, _ => none

/-- Normalisation and validation of the parsed book in part_001 /create-book
(lines 92-117); identical to server.js except for the page mapping. -/
def p1BookBody (style book : JVal) : Option HttpResponse :=
  match jsGet book "title", jsGet book "subtitle", jsGet book "pages" with
  | some titleF, some subtitleF, some pagesF =>
    if (pagesFromF pagesF).length ≠ 10 then
      some (pageCountResponse (pagesFromF pagesF).length)
    else
      match mapPagesP1 0 (pagesFromF pagesF) with
      | some mapped =>
        some (okBookResponse style (jsOrV titleF (.jStr "My Magical Story"))
          (jsOrV subtitleF (.jStr "A personalized adventure")) mapped)
      | none => none
  | _, _, _ => none

/-- POST /create-book of server.js (lines 28-140). -/
def sv_createBook (req : List (String × JVal)) (up : Except UpErr Completion) :
    List UpCall × HttpResponse :=
  if missingCreateBookFields req then ([], missingFieldsResponse)
  else
    let style := jsOrV (lookupField req "illustration_style") (.jStr "Soft Storybook")
    let prompt := svCreateBookPrompt style (lookupField req "child_name")
      (lookupField req "age") (lookupField req "story_type")
    match up with
    | .error e => ([.chat prompt], createBookCatch e)
    | .ok completion =>
      let raw := orStr (completionContent completion) "\x7b\x7d"
      match jsonParse raw with
      | none =>
        ([.chat prompt],
          genFailedResponse "AI generation failed" "unknown_error" parseErrMessage)
      | some book =>
        match svBookBody style book with
        | some resp => ([.chat prompt], resp)
        | none =>
          ([.chat prompt],
            genFailedResponse "AI generation failed" "unknown_error" typeErrMessage)

/-- POST /create-book of part_001 (lines 42-139). -/
def p1_createBook (req : List (String × JVal)) (up : Except UpErr Completion) :
    List UpCall × HttpResponse :=
  if missingCreateBookFields req then ([], missingFieldsResponse)
  else
    let style := jsOrV (lookupField req "illustration_style") (.jStr "Soft Storybook")
    let prompt := p1CreateBookPrompt style (lookupField req "child_name")
      (lookupField req "age") (lookupField req "story_type")
    match up with
    | .error e => ([.chat prompt], createBookCatch e)
    | .ok completion =>
      let raw := orStr (completionContent completion) "\x7b\x7d"
      match jsonParse raw with
      | none =>
        ([.chat prompt],
          genFailedResponse "AI generation failed" "unknown_error" parseErrMessage)
      | some book =>
        match p1BookBody style book with
        | some resp => ([.chat prompt], resp)
        | none =>
          ([.chat prompt],
            genFailedResponse "AI generation failed" "unknown_error" typeErrMessage)

/-- The catch body of part_000's handlers: `res.status(500).json({ error:
err.message })`; an undefined message is dropped by the JSON serialisation. -/
def p0CatchResponse (m : Option String) : HttpResponse :=
  ⟨500, .jObj (match m with
    | some s => [("error", .jStr s)]
    | none => [])⟩

/-- Index-keyed fields produced by spreading an array or string. -/
def indexFields : Nat → List JVal → List (String × JVal)
  | _, [] => []
  | i, v :: vs => (toString i, v) :: indexFields (i + 1) vs

/-- The own enumerable fields contributed by `...v` in an object literal. -/
def fieldsOfSpread : JVal → List (String × JVal)
  | .jObj fs => fs
  | .jArr xs => indexFields 0 xs
  | .jStr s => indexFields 0 (s.data.map fun c => .jStr (String.mk [c]))
  | _ => []

/-- `{ base..., ...v }`: later fields overwrite earlier ones. -/
def spreadInto (base : List (String × JVal)) (v : JVal) : List (String × JVal) :=
  (fieldsOfSpread v).foldl (fun acc p => insertField acc p.1 p.2) base

/-- POST /create-book of part_000 (lines 49-79): no field validation, and the
parsed payload is spread unvalidated into the 200 response. -/
def p0_createBook (req : List (String × JVal)) (up : Except UpErr Completion) :
    List UpCall × HttpResponse :=
  let prompt := p0CreateBookPrompt (lookupField req "language")
    (lookupField req "child_name") (lookupField req "age")
    (lookupField req "story_type") (lookupField req "character_description")
    (lookupField req "illustration_style")
  match up with
  | .error e => ([.chat prompt], p0CatchResponse e.message)
  | .ok completion =>
    match completion.choices.head? with
    | none => ([.chat prompt], p0CatchResponse (some typeErrMessage))
    | some ch =>
      let raw := match ch.message.content with
        | some s => s
        | none => "null"
      match jsonParse raw with
      | none => ([.chat prompt], p0CatchResponse (some parseErrMessage))
      | some book =>
        ([.chat prompt], ⟨200, .jObj (spreadInto [("status", .jStr "ok")] book)⟩)

/-- POST /generate-character of part_000 (lines 24-46): the raw vision content
is returned untrimmed and without any fallback. -/
def p0_generateCharacter (req : List (String × JVal))
    (vision : Except UpErr Completion) : List UpCall × HttpResponse :=
  if !truthyO (lookupField req "child_photo") then
    ([], ⟨400, .jObj [("error", .jStr "No photo provided")]⟩)
  else
    match vision with
    | .error e => ([.chat p0VisionPrompt], p0CatchResponse e.message)
    | .ok c =>
      match c.choices.head? with
      | none => ([.chat p0VisionPrompt], p0CatchResponse (some typeErrMessage))
      | some ch =>
        ([.chat p0VisionPrompt], ⟨200, .jObj [("status", .jStr "ok"),
          ("characterDescription",
            match ch.message.content with
            | some s => .jStr s
            | none => .jNull)]⟩)

/-- The 500 body of the /generate-character catch in server.js (lines 223-229):
always 500, with no quota branch. -/
def charFailResponse (details : Option String) : HttpResponse :=
  ⟨500, .jObj ([("status", .jStr "error"),
    ("message", .jStr "Character generation failed")] ++
    (match details with
     | some s => [("details", .jStr s)]
     | none => []))⟩

/-- The 200 body of /generate-character in server.js (lines 217-221). -/
def charOkResponse (imageBase64 : JVal) (characterDescription : String) :
    HttpResponse :=
  ⟨200, .jObj [("status", .jStr "ok"),
    ("characterImageBase64", imageBase64),
    ("characterDescription", .jStr characterDescription)]⟩

/-- The `else if (imageData?.url)` branch of /generate-character in server.js
(lines 211-215). -/
def sv_charUrlBranch (calls : List UpCall) (item : ImageItem) (desc : String)
    (env : CharEnv) : List UpCall × HttpResponse :=
  match item.url with
  | some u =>
    if u ≠ "" then
      match env.fetched with
      | .error e => (calls ++ [.fetchUrl u], charFailResponse e.message)
      | .ok b => (calls ++ [.fetchUrl u], charOkResponse (.jStr b) desc)
    else (calls, charOkResponse .jNull desc)
  | none => (calls, charOkResponse .jNull desc)

/-- POST /generate-character of server.js (lines 142-230). -/
def sv_generateCharacter (req : List (String × JVal)) (env : CharEnv) :
    List UpCall × HttpResponse :=
  if !truthyO (lookupField req "child_photo") then
    ([], ⟨400, .jObj [("status", .jStr "error"),
      ("message", .jStr "Missing child_photo")]⟩)
  else
    let style := jsOrV (lookupField req "illustration_style") (.jStr "Soft Storybook")
    match env.vision with
    | .error e => ([.chat svVisionPrompt], charFailResponse e.message)
    | .ok dresp =>
      let characterDescription :=
        orStr ((completionContent dresp).map jsTrim) "Young child character"
      let calls := [UpCall.chat svVisionPrompt,
        UpCall.imageGen (svCharImagePrompt style characterDescription)]
      match env.image with
      | .error e => (calls, charFailResponse e.message)
      | .ok ir =>
        match ir.data.head? with
        | none => (calls, charOkResponse .jNull characterDescription)
        | some item =>
          match item.b64_json with
          | some b =>
            if b ≠ "" then (calls, charOkResponse (.jStr b) characterDescription)
            else sv_charUrlBranch calls item characterDescription env
          | none => sv_charUrlBranch calls item characterDescription env

/-- The 500 body of /generate-image in server.js when the upstream returned
neither a payload nor a URL (lines 279-283). -/
def svNoImageResponse : HttpResponse :=
  ⟨500, .jObj [("status", .jStr "error"),
    ("message", .jStr "Image generation failed"),
    ("code", .jStr "no_image_returned")]⟩

/-- The `if (item?.url)` branch of /generate-image in server.js (lines 272-277). -/
def sv_imgUrlBranch (fp : String) (item : ImageItem) (env : SvImgEnv) :
    List UpCall × HttpResponse :=
  match item.url with
  | some u =>
    if u ≠ "" then
      match env.fetched with
      | .error e => ([.imageGen fp, .fetchUrl u], svImageCatch e)
      | .ok b => ([.imageGen fp, .fetchUrl u], ⟨200, .jObj [("status", .jStr "ok"),
          ("imageBase64", .jStr b)]⟩)
    else ([.imageGen fp], svNoImageResponse)
  | none => ([.imageGen fp], svNoImageResponse)

/-- POST /generate-image of server.js (lines 237-296): the result is always
returned inline as base64, never persisted. -/
def sv_generateImage (req : List (String × JVal)) (env : SvImgEnv) :
    List UpCall × HttpResponse :=
  if !truthyO (lookupField req "prompt") then
    ([], ⟨400, .jObj [("status", .jStr "error"),
      ("message", .jStr "Missing required field: prompt")]⟩)
  else
    let style := jsOrV (lookupField req "illustration_style") (.jStr "Soft Storybook")
    let fp := svImageFinalPrompt (lookupField req "prompt") style
    match env.image with
    | .error e => ([.imageGen fp], svImageCatch e)
    | .ok ir =>
      match ir.data.head? with
      | none => ([.imageGen fp], svNoImageResponse)
      | some item =>
        match item.b64_json with
        | some b =>
          if b ≠ "" then ([.imageGen fp], ⟨200, .jObj [("status", .jStr "ok"),
            ("imageBase64", .jStr b)]⟩)
          else sv_imgUrlBranch fp item env
        | none => sv_imgUrlBranch fp item env

/-- The base64 branch of /generate-image in part_001 (lines 186-206):
`item?.b64_json || item?.base64 || null`, then decode, write to
/public/generated under a random name, and answer with the relative path. -/
def p1_imgB64Branch (fp : String) (item : Option ImageItem) (env : P1ImgEnv) :
    List UpCall × HttpResponse :=
  let b64 : Option String :=
    if truthyS (item.bind ImageItem.b64_json) then item.bind ImageItem.b64_json
    else if truthyS (item.bind ImageItem.base64) then item.bind ImageItem.base64
    else none
  match b64 with
  | none => ([.imageGen fp], ⟨500, .jObj [("status", .jStr "error"),
      ("message", .jStr "Image generation failed (no image returned).")]⟩)
  | some _ =>
    let fileName := env.uuid ++ ".png"
    ([.imageGen fp, .writeFile fileName], ⟨200, .jObj [("status", .jStr "ok"),
      ("imageUrl", .jStr ("/generated/" ++ fileName))]⟩)

/-- POST /generate-image of part_001 (lines 148-228).  In the URL case the
upstream URL is returned to the caller directly (lines 179-184), with no
download and no write to /public/generated. -/
def p1_generateImage (req : List (String × JVal)) (env : P1ImgEnv) :
    List UpCall × HttpResponse :=
  if !truthyO (lookupField req "prompt") then
    ([], ⟨400, .jObj [("status", .jStr "error"),
      ("message", .jStr "Missing required field: prompt")]⟩)
  else
    let style := jsOrV (lookupField req "illustration_style") (.jStr "Soft Storybook")
    let fp := p1ImageFinalPrompt (lookupField req "prompt") style
    match env.image with
    | .error e => ([.imageGen fp], p1ImageCatch e)
    | .ok ir =>
      match ir.data.head? with
      | none => p1_imgB64Branch fp none env
      | some item =>
        match item.url with
        | some u =>
          if u ≠ "" then ([.imageGen fp], ⟨200, .jObj [("status", .jStr "ok"),
            ("imageUrl", .jStr u)]⟩)
          else p1_imgB64Branch fp (some item) env
        | none => p1_imgB64Branch fp (some item) env

/-- JSON text of one upstream page object, used in the concrete runs below. -/
def pageJsonStr (t ip : String) : String :=
  "\x7b\"text\":\"" ++ t ++ "\",\"imagePrompt\":\"" ++ ip ++ "\"\x7d"

/-- JSON text of an upstream book payload with `n` identical pages. -/
def bookJsonStr (n : Nat) : String :=
  "\x7b\"title\":\"T\",\"subtitle\":\"S\",\"pages\":["
    ++ String.intercalate "," (List.replicate n (pageJsonStr "a story" "a picture"))
    ++ "]\x7d"

/-- A completion whose single choice carries the given content. -/
def completionOf (s : String) : Completion := ⟨[⟨⟨some s⟩⟩]⟩

/-- The example request of the specification's test scenario. -/
def miaReq : List (String × JVal) :=
  [("child_name", .jStr "Mia"), ("age", .jNum 5),
   ("story_type", .jStr "ocean adventure")]

theorem jsonParse_bookJsonStr_two : jsonParse (bookJsonStr 2) =
  some (.jObj [("title", .jStr "T"), ("subtitle", .jStr "S"),
    ("pages", .jArr [.jObj [("text", .jStr "a story"), ("imagePrompt", .jStr "a picture")],
      .jObj [("text", .jStr "a story"), ("imagePrompt", .jStr "a picture")]])]) := rfl

theorem jsOrV_falsy {v : Option JVal} {d : JVal} (h : truthyO v = false) :
    jsOrV v d = d := by
  cases v with
  | none => rfl
  | some x =>
    simp only [truthyO] at h
    simp [jsOrV, h]

theorem coerceStr_trim (v : Option JVal) : jsTrim (coerceStr v) = coerceStr v :=
  jsTrim_idem _

theorem coerceStr_falsy {v : Option JVal} (h : truthyO v = false) :
    coerceStr v = "" := by
  unfold coerceStr
  rw [jsOrV_falsy h]
  rfl

theorem mapPagesSv_length : ∀ {ps ys : List JVal},
    mapPagesSv ps = some ys → ys.length = ps.length := by
  intro ps
  induction ps with
  | nil =>
    intro ys h
    simp only [mapPagesSv, Option.some.injEq] at h
    simp [← h]
  | cons p ps ih =>
    intro ys h
    simp only [mapPagesSv] at h
    rcases hp : svPageJson p with _ | x <;> rw [hp] at h
    · cases h
    rcases hm : mapPagesSv ps with _ | xs <;> rw [hm] at h
    · cases h
    injection h with h
    subst h
    simp [ih hm]

theorem mapPagesP1_length : ∀ {ps : List JVal} {i : Nat} {ys : List JVal},
    mapPagesP1 i ps = some ys → ys.length = ps.length := by
  intro ps
  induction ps with
  | nil =>
    intro i ys h
    simp only [mapPagesP1, Option.some.injEq] at h
    simp [← h]
  | cons p ps ih =>
    intro i ys h
    simp only [mapPagesP1] at h
    rcases hp : p1PageJson i p with _ | x <;> rw [hp] at h
    · cases h
    rcases hm : mapPagesP1 (i + 1) ps with _ | xs <;> rw [hm] at h
    · cases h
    injection h with h
    subst h
    simp [ih hm]

theorem mapPagesP1_get : ∀ {ps : List JVal} {i : Nat} {ys : List JVal},
    mapPagesP1 i ps = some ys → ∀ j, j < ys.length →
    ∃ t ip, ys.get? j = some (.jObj [("pageNumber", .jNum (i + j + 1)),
      ("text", .jStr t), ("imagePrompt", .jStr ip), ("imageUrl", .jNull)]) ∧
      jsTrim t = t ∧ jsTrim ip = ip := by
  intro ps
  induction ps with
  | nil =>
    intro i ys h j hj
    simp only [mapPagesP1, Option.some.injEq] at h
    subst h
    simp at hj
  | cons p ps ih =>
    intro i ys h j hj
    simp only [mapPagesP1] at h
    rcases hp : p1PageJson i p with _ | x <;> rw [hp] at h
    · cases h
    rcases hm : mapPagesP1 (i + 1) ps with _ | xs <;> rw [hm] at h
    · cases h
    injection h with h
    subst h
    cases j with
    | zero =>
      unfold p1PageJson at hp
      rcases ht : jsGet p "text" with _ | t <;> rw [ht] at hp
      · cases hp
      rcases hip : jsGet p "imagePrompt" with _ | ipf <;> rw [hip] at hp
      · cases hp
      injection hp with hp
      subst hp
      exact ⟨coerceStr t, coerceStr ipf, by simp, coerceStr_trim t,
        coerceStr_trim ipf⟩
    | succ j =>
      obtain ⟨t, ip, hget, h1, h2⟩ := ih hm j (by simpa using hj)
      refine ⟨t, ip, ?_, h1, h2⟩
      have harith : ((i + 1 : Nat) : Int) + (j : Int) + 1 =
          (i : Int) + ((j + 1 : Nat) : Int) + 1 := by push_cast; ring
      rw [harith] at hget
      simpa using hget

theorem statusCode_okBookResponse (style title subtitle : JVal)
    (pages : List JVal) : (okBookResponse style title subtitle pages).statusCode = 200 :=
  rfl

theorem pagesOf_okBookResponse (style title subtitle : JVal)
    (pages : List JVal) : pagesOf (okBookResponse style title subtitle pages) = pages := by
  simp [pagesOf, bodyField, okBookResponse, lookupField]

theorem createBookCatch_statusCode (e : UpErr) :
    (createBookCatch e).statusCode = 429 ∨ (createBookCatch e).statusCode = 500 := by
  unfold createBookCatch
  split
  · exact Or.inl rfl
  · exact Or.inr rfl

theorem svBookBody_ok {style book : JVal} {r : HttpResponse}
    (h : svBookBody style book = some r) (h200 : r.statusCode = 200) :
    ∃ title subtitle pages mapped, mapPagesSv pages = some mapped ∧
      pages.length = 10 ∧ r = okBookResponse style title subtitle mapped := by
  unfold svBookBody at h
  split at h
  case h_2 => cases h
  case h_1 titleF subtitleF pagesF _ _ _ =>
    split at h
    · injection h with h
      rw [← h] at h200
      simp [pageCountResponse] at h200
    · rename_i h10
      split at h
      case h_2 => cases h
      case h_1 mapped hmap =>
        injection h with h
        exact ⟨_, _, pagesFromF pagesF, mapped, hmap, by omega, h.symm⟩

theorem p1BookBody_ok {style book : JVal} {r : HttpResponse}
    (h : p1BookBody style book = some r) (h200 : r.statusCode = 200) :
    ∃ title subtitle pages mapped, mapPagesP1 0 pages = some mapped ∧
      pages.length = 10 ∧ r = okBookResponse style title subtitle mapped := by
  unfold p1BookBody at h
  split at h
  case h_2 => cases h
  case h_1 titleF subtitleF pagesF _ _ _ =>
    split at h
    · injection h with h
      rw [← h] at h200
      simp [pageCountResponse] at h200
    · rename_i h10
      split at h
      case h_2 => cases h
      case h_1 mapped hmap =>
        injection h with h
        exact ⟨_, _, pagesFromF pagesF, mapped, hmap, by omega, h.symm⟩

theorem orStr_falsy {s : Option String} {d : String} (h : truthyS s = false) :
    orStr s d = d := by
  cases s with
  | none => rfl
  | some x =>
    simp only [truthyS, ne_eq, decide_not, Bool.not_eq_false', decide_eq_true_eq] at h
    simp [orStr, h]

/-- The first chat prompt recorded in a call trace. -/
def firstChatPrompt : List UpCall → String
  | .chat p :: _ => p
  | _ => ""

theorem sv_createBook_calls {req : List (String × JVal)}
    {up : Except UpErr Completion} (hmiss : missingCreateBookFields req = false) :
    (sv_createBook req up).1 = [.chat (svCreateBookPrompt
      (jsOrV (lookupField req "illustration_style") (.jStr "Soft Storybook"))
      (lookupField req "child_name") (lookupField req "age")
      (lookupField req "story_type"))] := by
  cases up with
  | error e => simp [sv_createBook, hmiss]
  | ok c =>
    rcases hj : jsonParse (orStr (completionContent c) "\x7b\x7d") with _ | book
    · simp [sv_createBook, hmiss, hj]
    · rcases hb : svBookBody (jsOrV (lookupField req "illustration_style")
          (.jStr "Soft Storybook")) book with _ | resp
      · simp [sv_createBook, hmiss, hj, hb]
      · simp [sv_createBook, hmiss, hj, hb]

theorem p1_createBook_calls {req : List (String × JVal)}
    {up : Except UpErr Completion} (hmiss : missingCreateBookFields req = false) :
    (p1_createBook req up).1 = [.chat (p1CreateBookPrompt
      (jsOrV (lookupField req "illustration_style") (.jStr "Soft Storybook"))
      (lookupField req "child_name") (lookupField req "age")
      (lookupField req "story_type"))] := by
  cases up with
  | error e => simp [p1_createBook, hmiss]
  | ok c =>
    rcases hj : jsonParse (orStr (completionContent c) "\x7b\x7d") with _ | book
    · simp [p1_createBook, hmiss, hj]
    · rcases hb : p1BookBody (jsOrV (lookupField req "illustration_style")
          (.jStr "Soft Storybook")) book with _ | resp
      · simp [p1_createBook, hmiss, hj, hb]
      · simp [p1_createBook, hmiss, hj, hb]

theorem p0_createBook_calls (req : List (String × JVal))
    (up : Except UpErr Completion) :
    (p0_createBook req up).1 = [.chat (p0CreateBookPrompt
      (lookupField req "language") (lookupField req "child_name")
      (lookupField req "age") (lookupField req "story_type")
      (lookupField req "character_description")
      (lookupField req "illustration_style"))] := by
  cases up with
  | error e => simp [p0_createBook]
  | ok c =>
    rcases hc : c.choices.head? with _ | ch
    · simp [p0_createBook, hc]
    · rcases hj : jsonParse (match ch.message.content with
          | some s => s
          | none => "null") with _ | book
      · simp [p0_createBook, hc, hj]
      · simp [p0_createBook, hc, hj]

theorem sv_createBook_success {req : List (String × JVal)}
    {up : Except UpErr Completion}
    (h : (sv_createBook req up).2.statusCode = 200) :
    ∃ title subtitle pages mapped, mapPagesSv pages = some mapped ∧
      pages.length = 10 ∧ (sv_createBook req up).2 = okBookResponse
        (jsOrV (lookupField req "illustration_style") (.jStr "Soft Storybook"))
        title subtitle mapped := by
  cases hmiss : missingCreateBookFields req with
  | true => simp [sv_createBook, hmiss, missingFieldsResponse] at h
  | false =>
    cases up with
    | error e =>
      simp only [sv_createBook, hmiss] at h
      rcases createBookCatch_statusCode e with h4 | h5 <;> simp_all
    | ok c =>
      simp only [sv_createBook, hmiss, Bool.false_eq_true, if_false] at h ⊢
      rcases hj : jsonParse (orStr (completionContent c) "\x7b\x7d") with _ | book <;>
        rw [hj] at h
      · simp [genFailedResponse] at h
      · dsimp only at h ⊢
        rcases hb : svBookBody (jsOrV (lookupField req "illustration_style")
            (.jStr "Soft Storybook")) book with _ | resp <;> rw [hb] at h
        · simp [genFailedResponse] at h
        · obtain ⟨t, s, pages, mapped, hmap, hlen, hr⟩ :=
            svBookBody_ok hb (by simpa using h)
          exact ⟨t, s, pages, mapped, hmap, hlen, by simpa using hr⟩

theorem p1_createBook_success {req : List (String × JVal)}
    {up : Except UpErr Completion}
    (h : (p1_createBook req up).2.statusCode = 200) :
    ∃ title subtitle pages mapped, mapPagesP1 0 pages = some mapped ∧
      pages.length = 10 ∧ (p1_createBook req up).2 = okBookResponse
        (jsOrV (lookupField req "illustration_style") (.jStr "Soft Storybook"))
        title subtitle mapped := by
  cases hmiss : missingCreateBookFields req with
  | true => simp [p1_createBook, hmiss, missingFieldsResponse] at h
  | false =>
    cases up with
    | error e =>
      simp only [p1_createBook, hmiss] at h
      rcases createBookCatch_statusCode e with h4 | h5 <;> simp_all
    | ok c =>
      simp only [p1_createBook, hmiss, Bool.false_eq_true, if_false] at h ⊢
      rcases hj : jsonParse (orStr (completionContent c) "\x7b\x7d") with _ | book <;>
        rw [hj] at h
      · simp [genFailedResponse] at h
      · dsimp only at h ⊢
        rcases hb : p1BookBody (jsOrV (lookupField req "illustration_style")
            (.jStr "Soft Storybook")) book with _ | resp <;> rw [hb] at h
        · simp [genFailedResponse] at h
        · obtain ⟨t, s, pages, mapped, hmap, hlen, hr⟩ :=
            p1BookBody_ok hb (by simpa using h)
          exact ⟨t, s, pages, mapped, hmap, hlen, by simpa using hr⟩

theorem bodyField_okBookResponse_style (st t s : JVal) (ps : List JVal) :
    bodyField (okBookResponse st t s ps) "illustration_style" = some st := rfl

theorem sv_imgUrlBranch_head (fp : String) (item : ImageItem) (env : SvImgEnv) :
    ((sv_imgUrlBranch fp item env).1).head? = some (.imageGen fp) := by
  unfold sv_imgUrlBranch
  rcases item.url with _ | u
  · rfl
  · dsimp only
    split
    · rcases env.fetched with e | b <;> rfl
    · rfl

theorem sv_generateImage_calls_head {req : List (String × JVal)}
    {env : SvImgEnv} (hp : truthyO (lookupField req "prompt") = true) :
    ((sv_generateImage req env).1).head? = some (.imageGen (svImageFinalPrompt
      (lookupField req "prompt")
      (jsOrV (lookupField req "illustration_style") (.jStr "Soft Storybook")))) := by
  simp only [sv_generateImage, hp, Bool.not_true, Bool.false_eq_true, if_false]
  rcases henv : env.image with e | ir
  · rfl
  · dsimp only
    rcases hitem : ir.data.head? with _ | item
    · rfl
    · dsimp only
      rcases hb : item.b64_json with _ | b
      · exact sv_imgUrlBranch_head _ _ _
      · dsimp only
        split
        · rfl
        · exact sv_imgUrlBranch_head _ _ _

theorem p1_imgB64Branch_head (fp : String) (item : Option ImageItem)
    (env : P1ImgEnv) : ((p1_imgB64Branch fp item env).1).head? =
      some (.imageGen fp) := by
  unfold p1_imgB64Branch
  dsimp only
  split <;> rfl

theorem p1_generateImage_calls_head {req : List (String × JVal)}
    {env : P1ImgEnv} (hp : truthyO (lookupField req "prompt") = true) :
    ((p1_generateImage req env).1).head? = some (.imageGen (p1ImageFinalPrompt
      (lookupField req "prompt")
      (jsOrV (lookupField req "illustration_style") (.jStr "Soft Storybook")))) := by
  simp only [p1_generateImage, hp, Bool.not_true, Bool.false_eq_true, if_false]
  rcases henv : env.image with e | ir
  · rfl
  · dsimp only
    rcases hitem : ir.data.head? with _ | item
    · exact p1_imgB64Branch_head _ _ _
    · dsimp only
      rcases hu : item.url with _ | u
      · exact p1_imgB64Branch_head _ _ _
      · dsimp only
        split
        · rfl
        · exact p1_imgB64Branch_head _ _ _

/-- C1: evaluation at the failing input.  Both /create-book variants compute
`book.pages.slice(0, 10)` before the length check, so an upstream payload with
11 pages is not rejected: it is silently truncated to 10 pages and accepted
with HTTP 200, contradicting the claim that any pages length ≠ 10 yields the
500 page-count error.  Only the under-10 direction behaves as claimed. -/
theorem C1_truncation_eval :
    (sv_createBook miaReq (.ok (completionOf (bookJsonStr 11)))).2.statusCode = 200 ∧
    (pagesOf (sv_createBook miaReq (.ok (completionOf (bookJsonStr 11)))).2).length = 10 ∧
    (p1_createBook miaReq (.ok (completionOf (bookJsonStr 11)))).2.statusCode = 200 ∧
    (pagesOf (p1_createBook miaReq (.ok (completionOf (bookJsonStr 11)))).2).length = 10 ∧
    (sv_createBook miaReq (.ok (completionOf (bookJsonStr 3)))).2 = pageCountResponse 3 ∧
    (p1_createBook miaReq (.ok (completionOf (bookJsonStr 3)))).2 = pageCountResponse 3 :=
  ⟨rfl, rfl, rfl, rfl, rfl, rfl⟩

/-- C2 (counterexample): a successful server.js /create-book run returns 200
with 10 pages whose first page object carries no pageNumber field at all,
refuting the claim that every successful response's i-th page carries
pageNumber = i. -/
theorem C2_counterexample :
    (sv_createBook miaReq (.ok (completionOf (bookJsonStr 10)))).2.statusCode = 200 ∧
    (pagesOf (sv_createBook miaReq (.ok (completionOf (bookJsonStr 10)))).2).length = 10 ∧
    pageField (sv_createBook miaReq (.ok (completionOf (bookJsonStr 10)))).2 0 "pageNumber" = none :=
  ⟨rfl, rfl, rfl⟩

/-- C2 (amended): successful /create-book responses of the server.js and
part_001 variants contain exactly 10 pages; only part_001's pages carry a
pageNumber equal to the 1-based position (server.js pages omit pageNumber),
and the part_000 variant returns the parsed upstream payload unvalidated, as
witnessed by a concrete successful 3-page run. -/
theorem C2_amended_page_shape :
    (∀ req up, (sv_createBook req up).2.statusCode = 200 →
      (pagesOf (sv_createBook req up).2).length = 10) ∧
    (∀ req up, (p1_createBook req up).2.statusCode = 200 →
      (pagesOf (p1_createBook req up).2).length = 10 ∧
      ∀ j, j < 10 →
        pageField (p1_createBook req up).2 j "pageNumber" = some (.jNum (j + 1))) ∧
    ((p0_createBook miaReq (.ok (completionOf (bookJsonStr 3)))).2.statusCode = 200 ∧
      (pagesOf (p0_createBook miaReq (.ok (completionOf (bookJsonStr 3)))).2).length = 3) := by
  refine ⟨?_, ?_, rfl, rfl⟩
  · intro req up h
    obtain ⟨t, s, pages, mapped, hmap, hlen, heq⟩ := sv_createBook_success h
    rw [heq, pagesOf_okBookResponse, mapPagesSv_length hmap, hlen]
  · intro req up h
    obtain ⟨t, s, pages, mapped, hmap, hlen, heq⟩ := p1_createBook_success h
    have hml : mapped.length = 10 := by rw [mapPagesP1_length hmap, hlen]
    constructor
    · rw [heq, pagesOf_okBookResponse, hml]
    · intro j hj
      obtain ⟨tx, ip, hget, _, _⟩ := mapPagesP1_get hmap j (by omega)
      have hcast : ((0 : Nat) : Int) + (j : Int) + 1 = ((j : Int) + 1) := by
        push_cast
        ring
      rw [hcast] at hget
      unfold pageField
      rw [heq, pagesOf_okBookResponse, hget]
      simp [lookupField]

/-- C2 (witness): the amended page-shape theorem instantiated on a concrete
successful part_001 run. -/
theorem C2_witness :
    (pagesOf (p1_createBook miaReq (.ok (completionOf (bookJsonStr 10)))).2).length = 10 ∧
    pageField (p1_createBook miaReq (.ok (completionOf (bookJsonStr 10)))).2 2 "pageNumber" = some (.jNum (2 + 1)) :=
  ⟨(C2_amended_page_shape.2.1 miaReq (.ok (completionOf (bookJsonStr 10))) rfl).1,
   (C2_amended_page_shape.2.1 miaReq (.ok (completionOf (bookJsonStr 10))) rfl).2 2 (by omega)⟩

/-- C3 (counterexample): part_000's /create-book performs no field validation:
with child_name, age and story_type all absent it still invokes the
text-generation capability (one chat call is recorded) and answers 200, not
400, refuting the claim for that variant. -/
theorem C3_counterexample :
    (p0_createBook [] (.ok (completionOf (bookJsonStr 10)))).2.statusCode = 200 ∧
    (p0_createBook [] (.ok (completionOf (bookJsonStr 10)))).1.length = 1 :=
  ⟨rfl, rfl⟩

/-- C3 (amended): in the server.js and part_001 variants a /create-book request
missing child_name, age or story_type is answered 400 with no outbound call
(the trace is empty); the part_000 variant instead always issues the chat call,
whatever the request. -/
theorem C3_amended_validation :
    (∀ req up, missingCreateBookFields req = true →
      sv_createBook req up = ([], missingFieldsResponse)) ∧
    (∀ req up, missingCreateBookFields req = true →
      p1_createBook req up = ([], missingFieldsResponse)) ∧
    (∀ req up, (p0_createBook req up).1 = [.chat (p0CreateBookPrompt
      (lookupField req "language") (lookupField req "child_name")
      (lookupField req "age") (lookupField req "story_type")
      (lookupField req "character_description")
      (lookupField req "illustration_style"))]) := by
  refine ⟨?_, ?_, p0_createBook_calls⟩
  · intro req up h
    simp [sv_createBook, h]
  · intro req up h
    simp [p1_createBook, h]

/-- C3 (witness): the amended validation theorem instantiated on the empty
request. -/
theorem C3_witness :
    sv_createBook [] (.ok (completionOf "x")) = ([], missingFieldsResponse) :=
  C3_amended_validation.1 [] _ rfl

/-- A rate-limit error as thrown by the upstream client. -/
def err429 : UpErr := ⟨some 429, some "rate_limit_exceeded", some "Rate limit reached"⟩

/-- C4 (counterexample): the /generate-character catch block in server.js has
no quota branch: an upstream error with status 429 is answered with HTTP 500,
refuting the claim that every upstream-calling endpoint maps rate-limit
signals to 429. -/
theorem C4_counterexample :
    (sv_generateCharacter [("child_photo", .jStr "img")]
      ⟨.error err429, .ok ⟨[]⟩, .ok ""⟩).2.statusCode = 500 :=
  rfl

/-- C4 (amended): the /create-book handlers (server.js and part_001) and
part_001's /generate-image answer 429 with the dedicated quota body on an
upstream status-429 or insufficient_quota error; server.js's /generate-image
merely passes the upstream status through (so 429 stays 429) with its generic
body; server.js's /generate-character answers 500 with its generic body for
every upstream failure, rate-limit signals included. -/
theorem C4_amended_throttle :
    (∀ req e, missingCreateBookFields req = false →
      (e.status = some 429 ∨ e.code = some "insufficient_quota") →
      (sv_createBook req (.error e)).2 =
        quotaResponse quotaBodyStories (orStr e.code "unknown_error") ∧
      (p1_createBook req (.error e)).2 =
        quotaResponse quotaBodyStories (orStr e.code "unknown_error")) ∧
    (∀ req env e, truthyO (lookupField req "prompt") = true →
      env.image = .error e →
      (e.status = some 429 ∨ e.code = some "insufficient_quota") →
      (p1_generateImage req env).2 =
        quotaResponse quotaBodyImages (orStr e.code "unknown_error")) ∧
    (∀ req env e, truthyO (lookupField req "prompt") = true →
      env.image = .error e → e.status = some 429 →
      (sv_generateImage req env).2.statusCode = 429) ∧
    (∀ req env e, truthyO (lookupField req "child_photo") = true →
      env.vision = .error e →
      (sv_generateCharacter req env).2 = charFailResponse e.message ∧
      (sv_generateCharacter req env).2.statusCode = 500) := by
  have hcnd : ∀ e : UpErr, (e.status = some 429 ∨ e.code = some "insufficient_quota") →
      (orNat e.status 500 = 429 ∨ orStr e.code "unknown_error" = "insufficient_quota") := by
    intro e hq
    rcases hq with h | h
    · left
      rw [h]
      rfl
    · right
      rw [h]
      rfl
  refine ⟨?_, ?_, ?_, ?_⟩
  · intro req e hmiss hq
    constructor
    · simp only [sv_createBook, hmiss, Bool.false_eq_true, if_false]
      show createBookCatch e = _
      unfold createBookCatch
      rw [if_pos (hcnd e hq)]
    · simp only [p1_createBook, hmiss, Bool.false_eq_true, if_false]
      show createBookCatch e = _
      unfold createBookCatch
      rw [if_pos (hcnd e hq)]
  · intro req env e hp henv hq
    simp only [p1_generateImage, hp, Bool.not_true, Bool.false_eq_true, if_false]
    rw [henv]
    show p1ImageCatch e = _
    unfold p1ImageCatch
    rw [if_pos (hcnd e hq)]
  · intro req env e hp henv hstat
    simp only [sv_generateImage, hp, Bool.not_true, Bool.false_eq_true, if_false]
    rw [henv]
    show (svImageCatch e).statusCode = 429
    unfold svImageCatch
    rw [hstat]
    rfl
  · intro req env e hp henv
    have hs : (sv_generateCharacter req env).2 = charFailResponse e.message := by
      simp only [sv_generateCharacter, hp, Bool.not_true, Bool.false_eq_true, if_false]
      rw [henv]
    exact ⟨hs, by rw [hs]; rfl⟩

/-- C4 (witness): the amended throttle theorem instantiated on concrete
rate-limit errors. -/
theorem C4_witness :
    (sv_createBook miaReq (.error err429)).2 =
      quotaResponse quotaBodyStories (orStr err429.code "unknown_error") ∧
    (p1_generateImage [("prompt", .jStr "a whale waving")]
        ⟨.error err429, "f3a9"⟩).2 =
      quotaResponse quotaBodyImages (orStr err429.code "unknown_error") :=
  ⟨(C4_amended_throttle.1 miaReq err429 rfl (Or.inl rfl)).1,
   C4_amended_throttle.2.1 [("prompt", .jStr "a whale waving")]
     ⟨.error err429, "f3a9"⟩ err429 rfl rfl (Or.inl rfl)⟩

/-- A time-limited upstream retrieval URL as the image capability returns it. -/
def upstreamUrl : String := "https://oaiusercontent.example/img-4711.png"

/-- C5: evaluation at the failing input.  When the upstream image capability of
part_001's /generate-image returns a retrieval URL, the handler returns that
upstream URL to the caller verbatim with no fetch and no write under
/public/generated (the trace holds only the generation call), contradicting
the claim (and the handler's own doc comment) that the bytes are downloaded
and persisted under a random /generated path.  Only the base64 branch persists
under the random name. -/
theorem C5_url_passthrough :
    (p1_generateImage [("prompt", .jStr "a whale waving")]
        ⟨.ok ⟨[⟨none, some upstreamUrl, none⟩]⟩, "f3a9"⟩).2 =
      ⟨200, .jObj [("status", .jStr "ok"), ("imageUrl", .jStr upstreamUrl)]⟩ ∧
    (p1_generateImage [("prompt", .jStr "a whale waving")]
        ⟨.ok ⟨[⟨none, some upstreamUrl, none⟩]⟩, "f3a9"⟩).1 =
      [.imageGen (p1ImageFinalPrompt (some (.jStr "a whale waving")) (.jStr "Soft Storybook"))] ∧
    (p1_generateImage [("prompt", .jStr "a whale waving")]
        ⟨.ok ⟨[⟨some "QUJD", none, none⟩]⟩, "f3a9"⟩).2 =
      ⟨200, .jObj [("status", .jStr "ok"), ("imageUrl", .jStr "/generated/f3a9.png")]⟩ ∧
    (p1_generateImage [("prompt", .jStr "a whale waving")]
        ⟨.ok ⟨[⟨some "QUJD", none, none⟩]⟩, "f3a9"⟩).1 =
      [.imageGen (p1ImageFinalPrompt (some (.jStr "a whale waving")) (.jStr "Soft Storybook")),
        .writeFile "f3a9.png"] :=
  ⟨rfl, rfl, rfl, rfl⟩

/-- C6 (counterexample): part_000's /create-book, on the example request with
no illustrationStyle, composes its prompt with the fallback "3D Render", not
"Soft Storybook", refuting the claim that every /create-book substitutes
"Soft Storybook". -/
theorem C6_counterexample :
    containsSub (firstChatPrompt (p0_createBook miaReq
      (.ok (completionOf (bookJsonStr 10)))).1) "3D Render" = true ∧
    containsSub (firstChatPrompt (p0_createBook miaReq
      (.ok (completionOf (bookJsonStr 10)))).1) "Soft Storybook" = false :=
  ⟨rfl, rfl⟩

/-- C6 (amended): in server.js and part_001 an absent (or falsy)
illustration_style is replaced by "Soft Storybook": /create-book composes its
prompt with it and echoes it in the success body, and /generate-image composes
its final prompt with it; the composed prompts indeed contain the string.  The
part_000 /create-book prompt instead falls back to "3D Render". -/
theorem C6_amended_style_default :
    (∀ req up, missingCreateBookFields req = false →
      truthyO (lookupField req "illustration_style") = false →
      (sv_createBook req up).1 = [.chat (svCreateBookPrompt (.jStr "Soft Storybook")
        (lookupField req "child_name") (lookupField req "age")
        (lookupField req "story_type"))] ∧
      ((sv_createBook req up).2.statusCode = 200 →
        bodyField (sv_createBook req up).2 "illustration_style" = some (.jStr "Soft Storybook")) ∧
      (p1_createBook req up).1 = [.chat (p1CreateBookPrompt (.jStr "Soft Storybook")
        (lookupField req "child_name") (lookupField req "age")
        (lookupField req "story_type"))] ∧
      ((p1_createBook req up).2.statusCode = 200 →
        bodyField (p1_createBook req up).2 "illustration_style" = some (.jStr "Soft Storybook"))) ∧
    (∀ req env, truthyO (lookupField req "prompt") = true →
      truthyO (lookupField req "illustration_style") = false →
      ((sv_generateImage req env).1).head? =
        some (.imageGen (svImageFinalPrompt (lookupField req "prompt") (.jStr "Soft Storybook")))) ∧
    (∀ req env, truthyO (lookupField req "prompt") = true →
      truthyO (lookupField req "illustration_style") = false →
      ((p1_generateImage req env).1).head? =
        some (.imageGen (p1ImageFinalPrompt (lookupField req "prompt") (.jStr "Soft Storybook")))) ∧
    containsSub (svCreateBookPrompt (.jStr "Soft Storybook") (some (.jStr "Mia"))
      (some (.jNum 5)) (some (.jStr "ocean adventure"))) "Soft Storybook" = true ∧
    containsSub (svImageFinalPrompt (some (.jStr "a whale waving"))
      (.jStr "Soft Storybook")) "Soft Storybook" = true ∧
    containsSub (p1ImageFinalPrompt (some (.jStr "a whale waving"))
      (.jStr "Soft Storybook")) "Soft Storybook" = true := by
  refine ⟨?_, ?_, ?_, rfl, rfl, rfl⟩
  · intro req up hmiss hstyle
    have hsty : jsOrV (lookupField req "illustration_style") (.jStr "Soft Storybook") =
        .jStr "Soft Storybook" := jsOrV_falsy hstyle
    refine ⟨?_, ?_, ?_, ?_⟩
    · rw [sv_createBook_calls hmiss, hsty]
    · intro h200
      obtain ⟨t, s, pages, mapped, hmap, hlen, heq⟩ := sv_createBook_success h200
      rw [hsty] at heq
      rw [heq, bodyField_okBookResponse_style]
    · rw [p1_createBook_calls hmiss, hsty]
    · intro h200
      obtain ⟨t, s, pages, mapped, hmap, hlen, heq⟩ := p1_createBook_success h200
      rw [hsty] at heq
      rw [heq, bodyField_okBookResponse_style]
  · intro req env hp hstyle
    rw [sv_generateImage_calls_head hp, jsOrV_falsy hstyle]
  · intro req env hp hstyle
    rw [p1_generateImage_calls_head hp, jsOrV_falsy hstyle]

/-- C6 (witness): the amended default-style theorem instantiated on the
example request. -/
theorem C6_witness :
    (sv_createBook miaReq (.ok (completionOf (bookJsonStr 10)))).1 =
      [.chat (svCreateBookPrompt (.jStr "Soft Storybook") (some (.jStr "Mia"))
        (some (.jNum 5)) (some (.jStr "ocean adventure")))] ∧
    bodyField (sv_createBook miaReq (.ok (completionOf (bookJsonStr 10)))).2
      "illustration_style" = some (.jStr "Soft Storybook") := by
  have h := C6_amended_style_default.1 miaReq (.ok (completionOf (bookJsonStr 10))) rfl rfl
  exact ⟨by rw [h.1]; rfl, h.2.1 rfl⟩

/-- A 10-page upstream book whose first page text is whitespace only. -/
def bookJsonWs : String :=
  "\x7b\"title\":\"T\",\"subtitle\":\"S\",\"pages\":[" ++ pageJsonStr "   " "p1x" ++ ","
    ++ String.intercalate "," (List.replicate 9 (pageJsonStr "a story" "a picture"))
    ++ "]\x7d"

/-- C7 (counterexample): part_001's normalisation only trims; it does not
enforce non-emptiness, so an upstream page whose text is whitespace yields a
successful response whose first page text is the empty string, refuting the
claim that page text is non-empty after trimming. -/
theorem C7_counterexample :
    (p1_createBook miaReq (.ok (completionOf bookJsonWs))).2.statusCode = 200 ∧
    pageField (p1_createBook miaReq (.ok (completionOf bookJsonWs))).2 0 "text" =
      some (.jStr "") :=
  ⟨rfl, rfl⟩

/-- C7 (amended): in every successful part_001 /create-book response the
pageNumber values are contiguous and 1-based across the page sequence and each
page's text is whitespace-trimmed (trimming it again changes nothing) — but it
may be empty; the server.js variant's pages carry no pageNumber at all. -/
theorem C7_amended_page_invariants :
    ∀ req up, (p1_createBook req up).2.statusCode = 200 →
      ∀ j, j < (pagesOf (p1_createBook req up).2).length →
        pageField (p1_createBook req up).2 j "pageNumber" = some (.jNum (j + 1)) ∧
        ∃ t, pageField (p1_createBook req up).2 j "text" = some (.jStr t) ∧
          jsTrim t = t := by
  intro req up h j hj
  obtain ⟨t, s, pages, mapped, hmap, hlen, heq⟩ := p1_createBook_success h
  rw [heq, pagesOf_okBookResponse] at hj
  obtain ⟨tx, ip, hget, htr, _⟩ := mapPagesP1_get hmap j hj
  have hcast : ((0 : Nat) : Int) + (j : Int) + 1 = ((j : Int) + 1) := by
    push_cast
    ring
  rw [hcast] at hget
  constructor
  · unfold pageField
    rw [heq, pagesOf_okBookResponse, hget]
    simp [lookupField]
  · refine ⟨tx, ?_, htr⟩
    unfold pageField
    rw [heq, pagesOf_okBookResponse, hget]
    simp [lookupField]

/-- C7 (witness): the amended invariants instantiated on a concrete successful
part_001 run. -/
theorem C7_witness :
    pageField (p1_createBook miaReq (.ok (completionOf (bookJsonStr 10)))).2 0
      "pageNumber" = some (.jNum (0 + 1)) ∧
    ∃ t, pageField (p1_createBook miaReq (.ok (completionOf (bookJsonStr 10)))).2 0
      "text" = some (.jStr t) ∧ jsTrim t = t :=
  C7_amended_page_invariants miaReq (.ok (completionOf (bookJsonStr 10))) rfl 0
    (by decide)

/-- C8 (counterexample): part_000's /generate-character applies no fallback:
when the vision capability succeeds with an empty description the handler
returns 200 with characterDescription equal to the empty string, not a generic
fallback description, refuting the claim for that variant. -/
theorem C8_counterexample :
    (p0_generateCharacter [("child_photo", .jStr "img")] (.ok (completionOf ""))).2 =
      ⟨200, .jObj [("status", .jStr "ok"), ("characterDescription", .jStr "")]⟩ :=
  rfl

/-- C8 (amended): server.js's /generate-character substitutes the fallback
"Young child character" whenever the vision result trims to empty or is
missing, and still answers 200 when the image stage succeeds; part_000's
variant instead returns the raw (possibly empty, untrimmed) vision content in
a 200 response, with no fallback. -/
theorem C8_amended_fallback :
    (∀ req env dresp b, truthyO (lookupField req "child_photo") = true →
      env.vision = .ok dresp →
      truthyS ((completionContent dresp).map jsTrim) = false →
      env.image = .ok ⟨[⟨some b, none, none⟩]⟩ → b ≠ "" →
      (sv_generateCharacter req env).2 =
        charOkResponse (.jStr b) "Young child character") ∧
    (∀ req c ch, truthyO (lookupField req "child_photo") = true →
      c.choices.head? = some ch →
      (p0_generateCharacter req (.ok c)).2 = ⟨200, .jObj [("status", .jStr "ok"),
        ("characterDescription", match ch.message.content with
          | some s => .jStr s
          | none => .jNull)]⟩) := by
  constructor
  · intro req env dresp b hp hv hempty hi hb
    have hdesc : orStr ((completionContent dresp).map jsTrim)
        "Young child character" = "Young child character" := orStr_falsy hempty
    simp only [sv_generateCharacter, hp, Bool.not_true, Bool.false_eq_true, if_false]
    rw [hv]
    dsimp only
    rw [hi]
    dsimp only [List.head?]
    rw [if_pos hb, hdesc]
  · intro req c ch hp hch
    simp only [p0_generateCharacter, hp, Bool.not_true, Bool.false_eq_true, if_false]
    rw [hch]

/-- C8 (witness): the amended fallback theorem instantiated on a vision result
of whitespace only. -/
theorem C8_witness :
    (sv_generateCharacter [("child_photo", .jStr "img")]
      ⟨.ok (completionOf "   "), .ok ⟨[⟨some "IMG64", none, none⟩]⟩, .ok ""⟩).2 =
      charOkResponse (.jStr "IMG64") "Young child character" :=
  C8_amended_fallback.1 [("child_photo", .jStr "img")] _ (completionOf "   ")
    "IMG64" rfl rfl rfl rfl (by decide)

/-- C9: when the upstream chat completion carries no message content, the
`|| "{}"` fallback makes JSON.parse succeed on the object literal "{}" (so no
parse exception is possible on a missing payload), book.pages is then absent,
the pages local is the empty array, and both /create-book variants fail with
the page-count error reporting 0 returned pages. -/
theorem C9_missing_content :
    jsonParse "\x7b\x7d" = some (.jObj []) ∧
    (∀ req c, missingCreateBookFields req = false → completionContent c = none →
      (sv_createBook req (.ok c)).2 = pageCountResponse 0 ∧
      (p1_createBook req (.ok c)).2 = pageCountResponse 0) := by
  refine ⟨rfl, ?_⟩
  intro req c hmiss hc
  have hraw : orStr (completionContent c) "\x7b\x7d" = "\x7b\x7d" := by
    rw [hc]
    rfl
  constructor
  · simp only [sv_createBook, hmiss, Bool.false_eq_true, if_false, hraw]
    rw [show jsonParse "\x7b\x7d" = some (.jObj []) from rfl]
    dsimp only
    rw [show ∀ style : JVal, svBookBody style (.jObj []) =
      some (pageCountResponse 0) from fun _ => rfl]
  · simp only [p1_createBook, hmiss, Bool.false_eq_true, if_false, hraw]
    rw [show jsonParse "\x7b\x7d" = some (.jObj []) from rfl]
    dsimp only
    rw [show ∀ style : JVal, p1BookBody style (.jObj []) =
      some (pageCountResponse 0) from fun _ => rfl]

/-- C9 (witness): the missing-content theorem instantiated on a completion
with no choices. -/
theorem C9_witness :
    (sv_createBook miaReq (.ok ⟨[]⟩)).2 = pageCountResponse 0 ∧
    (p1_createBook miaReq (.ok ⟨[]⟩)).2 = pageCountResponse 0 :=
  C9_missing_content.2 miaReq ⟨[]⟩ rfl rfl

/-- C10: the page normalisation of both variants is total on non-null page
objects and produces string-valued, whitespace-trimmed text and imagePrompt
fields; a missing or falsy field is coerced to the empty string, so a success
response never carries null or non-string text/imagePrompt values. -/
theorem C10_normalization_total :
    ∀ fs i, ∃ t ip,
      svPageJson (.jObj fs) = some (.jObj [("text", .jStr t),
        ("imagePrompt", .jStr ip)]) ∧
      p1PageJson i (.jObj fs) = some (.jObj [("pageNumber", .jNum (i + 1)),
        ("text", .jStr t), ("imagePrompt", .jStr ip), ("imageUrl", .jNull)]) ∧
      jsTrim t = t ∧ jsTrim ip = ip ∧
      (truthyO (lookupField fs "text") = false → t = "") ∧
      (truthyO (lookupField fs "imagePrompt") = false → ip = "") :=
  fun fs i => ⟨coerceStr (lookupField fs "text"),
    coerceStr (lookupField fs "imagePrompt"), rfl, rfl, coerceStr_trim _,
    coerceStr_trim _, fun h => coerceStr_falsy h, fun h => coerceStr_falsy h⟩

/-- C10 (witness): the normalisation theorem instantiated on a page whose text
is null and whose imagePrompt is absent. -/
theorem C10_witness :
    ∃ t ip, svPageJson (.jObj [("text", .jNull)]) =
      some (.jObj [("text", .jStr t), ("imagePrompt", .jStr ip)]) ∧
      t = "" ∧ ip = "" := by
  obtain ⟨t, ip, h1, _, _, _, h5, h6⟩ := C10_normalization_total [("text", .jNull)] 0
  exact ⟨t, ip, h1, h5 rfl, h6 rfl⟩
